import Mathlib

/-!
Shallow embedding of the BookBack clinic booking backend (src/backend.py).
The datastore tables are modelled as lists of rows; supabase queries
(eq / single / limit 1) are modelled as List.find? on the row predicate,
and updates keyed by a column as List.map over rows matching that column.
JSON text columns are modelled by their parsed JSON value (an Option is
SQL NULL when none).  Unhandled Python exceptions (IndexError, TypeError)
are a distinct crash outcome, separate from typed HTTPException results.
Dict keys observed through json.dumps / HTTP encoding are modelled at
their string-encoded form, so slot inventories are association lists from
String to String with first-binding lookup and update-or-append insert.
-/

namespace BookBack

/-- A parsed JSON value, as produced by json.loads. -/
inductive Json where
  | null : Json
  | bool : Bool → Json
  | num : Int → Json
  | str : String → Json
  | arr : List Json → Json
  | obj : List (String × Json) → Json

/-- Request outcome other than success: an HTTPException raised by the
route, or an unhandled Python exception (crash) such as IndexError or
TypeError. -/
inductive Err where
  | http : Nat → String → Err
  | crash : String → Err
deriving DecidableEq

/-- A calendar date, counted in days since 1970-01-01 (a Thursday). -/
structure Date where
  days : Nat

/-- Stand-in for date.isoformat(): an injective textual key for the date,
used as the day_slots slot_date column value. -/
def Date.iso (d : Date) : String := toString d.days

/-- calendar.day_name of date.weekday, lowercased and truncated to three
letters; Python weekday() has Monday = 0 and 1970-01-01 was a Thursday. -/
def Date.weekdayCode (d : Date) : String :=
  match (d.days + 3) % 7 with
  | 0 => "mon"
  | 1 => "tue"
  | 2 => "wed"
  | 3 => "thu"
  | 4 => "fri"
  | 5 => "sat"
  | _ => "sun"

/-- Row of the appointments table (a booking token). created_at is a
wall-clock timestamp in seconds. -/
structure Appointment where
  id : Nat
  patient_id : Nat
  token : String
  used : Bool
  expired : Bool
  created_at : Nat

/-- Row of the patients table (fields the booking core touches). -/
structure Patient where
  id : Nat
  clinic_id : Nat
  name : String
  next_visit : Option String

/-- Row of the clinics table (fields the booking core touches); the
clinic_slots text column holds the weekly template JSON, none = NULL. -/
structure Clinic where
  id : Nat
  email : String
  clinic_slots : Option Json

/-- Row of the day_slots table; slots holds the parsed per-date slot
inventory (label to state string). -/
structure DaySlot where
  id : Nat
  clinic_id : Nat
  slot_date : String
  slots : List (String × String)
  updated_at : Nat

/-- Row of the ap_responses audit-log table. -/
structure ApResponse where
  clinic_id : Nat
  name : String
  date : String
  slot : String

/-- The datastore: one list of rows per table, plus the id the next
inserted day_slots row receives. -/
structure DB where
  appointments : List Appointment
  patients : List Patient
  clinics : List Clinic
  day_slots : List DaySlot
  ap_responses : List ApResponse
  next_day_slot_id : Nat

/-- Python dict item assignment on an association list: update the first
binding of the key in place, or append a new binding. -/
def dictSet : List (String × String) → String → String → List (String × String)
  | [], k, v => [(k, v)]
  | p :: rest, k, v => if p.1 == k then (k, v) :: rest else p :: dictSet rest k v

/-- Python iteration over a JSON value: lists yield their elements,
strings their one-character substrings, dicts their keys; other values
raise TypeError. -/
def pyIter : Json → Except Err (List Json)
  | .arr xs => .ok xs
  | .str s => .ok (s.toList.map (fun c => Json.str (String.singleton c)))
  | .obj fs => .ok (fs.map (fun f => Json.str f.1))
  | _ => .error (.crash "TypeError")

/-- Python equality of a JSON value against a string. -/
def pyEqStr (w : String) : Json → Bool
  | .str s => s == w
  | _ => false

/-- Whether needle occurs as a contiguous substring of hay. -/
def isSubstring (needle hay : String) : Bool :=
  (List.range (hay.length + 1)).any
    (fun i => needle.toList.isPrefixOf (hay.toList.drop i))

/-- The Python membership test w in day_obj: key membership for dicts,
substring for strings, element equality for lists; TypeError otherwise. -/
def pyContains (w : String) : Json → Except Err Bool
  | .obj fs => .ok (fs.any (fun f => f.1 == w))
  | .str s => .ok (isSubstring w s)
  | .arr xs => .ok (xs.any (pyEqStr w))
  | _ => .error (.crash "TypeError")

/-- The Python subscript day_obj[w] with a string key: dict field lookup
(KeyError when absent); TypeError on strings, lists and scalars. -/
def pyIndexStr (j : Json) (w : String) : Except Err Json :=
  match j with
  | .obj fs =>
    match fs.lookup w with
    | some v => .ok v
    | none => .error (.crash "KeyError")
  | _ => .error (.crash "TypeError")

/-- The string a hashable JSON value becomes when used as a dict key and
observed through json.dumps or the HTTP JSON encoding. -/
def keyToStr : Json → String
  | .str s => s
  | .num n => toString n
  | .bool true => "true"
  | .bool false => "false"
  | .null => "null"
  | .arr _ => ""
  | .obj _ => ""

/-- Whether a JSON value is hashable in Python (usable as a dict key). -/
def hashable : Json → Bool
  | .arr _ => false
  | .obj _ => false
  | _ => true

/-- The inner loop of step 6 of /day-slots: for slot in day_obj[weekday],
slots_for_day[slot] = "free"; unhashable slot values raise TypeError. -/
def insertSlots (slots : List (String × String)) : List Json → Except Err (List (String × String))
  | [] => .ok slots
  | x :: rest =>
    if hashable x then insertSlots (dictSet slots (keyToStr x) "free") rest
    else .error (.crash "TypeError")

/-- The outer loop of step 6 of /day-slots over the day-entries: the first
entry containing the weekday key contributes its slots and the loop
breaks; entries are examined in order. -/
def buildLoop (w : String) : List Json → Except Err (List (String × String))
  | [] => .ok []
  | dayObj :: rest =>
    match pyContains w dayObj with
    | .error e => .error e
    | .ok true =>
      match pyIndexStr dayObj w with
      | .error e => .error e
      | .ok v =>
        match pyIter v with
        | .error e => .error e
        | .ok items => insertSlots [] items
    | .ok false => buildLoop w rest

/-- Steps 4-6 of /day-slots: iterate the stored template value and build
the fresh inventory for the weekday. -/
def buildSlotsForDay (w : String) (tpl : Json) : Except Err (List (String × String)) :=
  match pyIter tpl with
  | .error e => .error e
  | .ok dayObjs => buildLoop w dayObjs

/-- Response of /day-slots. -/
structure DayResp where
  date : Date
  slots : List (String × String)

/-- The /day-slots route (get_or_create_day_slots, src/backend.py lines
523-611): validate the token, look up the patient (unguarded data[0]
indexing), return an existing inventory verbatim, or derive a fresh one
from the clinic template and insert it. -/
def get_or_create_day_slots (db : DB) (tok : String) (d : Date) :
    DB × Except Err DayResp :=
  match db.appointments.find? (fun a => a.token == tok) with
  | none => (db, .error (.http 404 "Invalid token"))
  | some appointment =>
    if appointment.used || appointment.expired then
      (db, .error (.http 400 "Token invalid"))
    else
      match db.patients.find? (fun p => p.id == appointment.patient_id) with
      | none => (db, .error (.crash "IndexError"))
      | some patient =>
        match db.day_slots.find?
            (fun r => r.clinic_id == patient.clinic_id && r.slot_date == d.iso) with
        | some existing => (db, .ok ⟨d, existing.slots⟩)
        | none =>
          match db.clinics.find? (fun c => c.id == patient.clinic_id) with
          | none => (db, .error (.crash "IndexError"))
          | some clinic =>
            match clinic.clinic_slots with
            | none => (db, .error (.crash "TypeError"))
            | some tpl =>
              match buildSlotsForDay d.weekdayCode tpl with
              | .error e => (db, .error e)
              | .ok slots_for_day =>
                let row : DaySlot :=
                  ⟨db.next_day_slot_id, patient.clinic_id, d.iso, slots_for_day, 0⟩
                ({ db with
                    day_slots := db.day_slots ++ [row],
                    next_day_slot_id := db.next_day_slot_id + 1 },
                  .ok ⟨d, slots_for_day⟩)

/-- Response of /add-slots on success. -/
structure Conf where
  status : String
  message : String
  date : Date
  slot : String

/-- The rows /add-slots reads before it writes anything. -/
structure ReserveCtx where
  appointment : Appointment
  patient : Patient
  day_slot : DaySlot

/-- The read-and-validate phase of /add-slots (modify_slots, src/backend.py
lines 612-671): token lookup, used-or-expired flags, patient row, day_slots
row, slot key membership and free check.  No time-based check occurs. -/
def reserve_read (db : DB) (tok : String) (d : Date) (slot : String) :
    Except Err ReserveCtx :=
  match db.appointments.find? (fun a => a.token == tok) with
  | none => .error (.http 404 "Invalid token")
  | some appointment =>
    if appointment.used || appointment.expired then
      .error (.http 400 "Token already used or expired")
    else
      match db.patients.find? (fun p => p.id == appointment.patient_id) with
      | none => .error (.http 404 "Patient not found")
      | some patient =>
        match db.day_slots.find?
            (fun r => r.clinic_id == patient.clinic_id && r.slot_date == d.iso) with
        | none => .error (.http 404 "Day slots not found")
        | some day_slot =>
          match day_slot.slots.lookup slot with
          | none => .error (.http 400 "Slot does not exist")
          | some v =>
            if v != "free" then .error (.http 400 "Slot already booked")
            else .ok ⟨appointment, patient, day_slot⟩

/-- The write phase of /add-slots (src/backend.py lines 673-719): mark the
slot booked in the snapshot and write the whole inventory back by row id,
set the patient next_visit, append the audit-log row, set the token used,
and return the confirmation. -/
def reserve_write (db : DB) (now : Nat) (d : Date) (slot : String) (ctx : ReserveCtx) :
    DB × Conf :=
  let newSlots := dictSet ctx.day_slot.slots slot "booked"
  let db1 : DB :=
    { db with
      day_slots := db.day_slots.map fun r =>
        if r.id == ctx.day_slot.id then { r with slots := newSlots, updated_at := now } else r,
      patients := db.patients.map fun p =>
        if p.id == ctx.patient.id then { p with next_visit := some d.iso } else p,
      ap_responses := db.ap_responses ++ [⟨ctx.patient.clinic_id, ctx.patient.name, d.iso, slot⟩],
      appointments := db.appointments.map fun a =>
        if a.id == ctx.appointment.id then { a with used := true } else a }
  (db1, ⟨"success", "Appointment confirmed", d, slot⟩)

/-- The /add-slots route (modify_slots): all validation reads happen
before any write; a validation failure raises without touching state. -/
def modify_slots (db : DB) (now : Nat) (tok : String) (d : Date) (slot : String) :
    DB × Except Err Conf :=
  match reserve_read db tok d slot with
  | .error e => (db, .error e)
  | .ok ctx =>
    let p := reserve_write db now d slot ctx
    (p.1, .ok p.2)

/-- The token validation of the /book page (book_appointment_page,
src/backend.py lines 442-468): unlike /add-slots it also rejects tokens
whose wall-clock age exceeds 7 days. -/
def book_page_token_check (db : DB) (now : Nat) (tok : String) : Except Err Unit :=
  match db.appointments.find? (fun a => a.token == tok) with
  | none => .error (.http 404 "Invalid token")
  | some appointment =>
    if appointment.used then .error (.http 400 "Token already used")
    else if appointment.expired then .error (.http 400 "Token expired")
    else if appointment.created_at + 7 * 86400 < now then .error (.http 400 "Token expired")
    else .ok ()

/-- The /save-clinic-slots route body: replace the clinic_slots column of
every clinics row with the given email by the JSON dump of the posted
list. -/
def save_clinic_slots (db : DB) (email : String) (availability : List Json) : DB :=
  { db with
    clinics := db.clinics.map fun c =>
      if c.email == email then { c with clinic_slots := some (Json.arr availability) } else c }

/-- The state-mutating operations of the booking core. -/
inductive Op where
  | daySlots : String → Date → Op
  | reserve : Nat → String → Date → String → Op
  | saveSlots : String → List Json → Op

/-- State effect of one operation. -/
def runOp (db : DB) : Op → DB
  | .daySlots tok d => (get_or_create_day_slots db tok d).1
  | .reserve now tok d s => (modify_slots db now tok d s).1
  | .saveSlots e a => save_clinic_slots db e a

/-- A well-formed day-entry, rendered to the JSON the template column
stores: an object whose values are arrays of string slot labels. -/
def entryToJson (e : List (String × List String)) : Json :=
  Json.obj (e.map (fun p => (p.1, Json.arr (p.2.map Json.str))))

/-- A well-formed weekly template rendered to its stored JSON value. -/
def templateToJson (tpl : List (List (String × List String))) : Json :=
  Json.arr (tpl.map entryToJson)

/-- The slot labels a well-formed template lists under weekday w: those of
the first day-entry containing the key w, or none. -/
def labelsFor (tpl : List (List (String × List String))) (w : String) : List String :=
  match tpl.find? (fun e => e.any (fun p => p.1 == w)) with
  | some e => (e.lookup w).getD []
  | none => []

/-- The inventory built from a list of labels, every label set free. -/
def buildFromLabels (labels : List String) : List (String × String) :=
  labels.foldl (fun m l => dictSet m l "free") []

/-- A one-day weekly template listing two Monday slots. -/
def tplMon : List (List (String × List String)) := [[("mon", ["09:00", "09:30"])]]

/-- A sample date: day 4 of the epoch, which falls on a Monday. -/
def sampleDate : Date := ⟨4⟩

/-- A sample store with one valid unused token, its patient and clinic,
and a materialized Monday inventory with both slots free. -/
def sampleDb : DB where
  appointments := [⟨1, 10, "tk1", false, false, 0⟩]
  patients := [⟨10, 20, "Alice", none⟩]
  clinics := [⟨20, "a@x.com", some (templateToJson tplMon)⟩]
  day_slots := [⟨100, 20, "4", [("09:00", "free"), ("09:30", "free")], 0⟩]
  ap_responses := []
  next_day_slot_id := 101

/-- sampleDb before materialization: no day_slots row exists yet. -/
def freshDb : DB where
  appointments := [⟨1, 10, "tk1", false, false, 0⟩]
  patients := [⟨10, 20, "Alice", none⟩]
  clinics := [⟨20, "a@x.com", some (templateToJson tplMon)⟩]
  day_slots := []
  ap_responses := []
  next_day_slot_id := 100

/-- The store state after the sample reservation succeeds. -/
def sampleAfter : DB := (modify_slots sampleDb 7 "tk1" sampleDate "09:00").1

/-- The confirmation the sample reservation returns. -/
def sampleConfVal : Conf := ⟨"success", "Appointment confirmed", sampleDate, "09:00"⟩

/-- sampleDb with the token already marked used. -/
def usedDb : DB :=
  { sampleDb with appointments := [⟨1, 10, "tk1", true, false, 0⟩] }

/-- sampleDb with the token flagged expired (but not used). -/
def expiredDb : DB :=
  { sampleDb with appointments := [⟨1, 10, "tk1", false, true, 0⟩] }

/-- sampleDb with a token created at time 0, to be presented 8 days later:
its stored used and expired flags are both false. -/
def staleDb : DB :=
  { sampleDb with appointments := [⟨1, 10, "tks", false, false, 0⟩] }

/-- freshDb with a NULL clinic_slots column. -/
def nullDb : DB :=
  { freshDb with clinics := [⟨20, "a@x.com", none⟩] }

/-- freshDb whose template is a list with no entry for any weekday. -/
def emptyTplDb : DB :=
  { freshDb with clinics := [⟨20, "a@x.com", some (Json.arr [])⟩] }

/-- sampleDb without its patient row (the token references patient 10,
which is absent). -/
def noPatientDb : DB :=
  { sampleDb with patients := [] }

/-- Two valid unused tokens for two patients of the same clinic, and one
free slot inventory: the double-booking race scenario. -/
def raceDb : DB where
  appointments := [⟨1, 10, "tkA", false, false, 0⟩, ⟨2, 11, "tkB", false, false, 0⟩]
  patients := [⟨10, 20, "Alice", none⟩, ⟨11, 20, "Bob", none⟩]
  clinics := [⟨20, "a@x.com", some (templateToJson tplMon)⟩]
  day_slots := [⟨100, 20, "4", [("09:00", "free"), ("09:30", "free")], 0⟩]
  ap_responses := []
  next_day_slot_id := 101

/-- The snapshot the first racing call reads. -/
def raceCtxA : ReserveCtx :=
  ⟨⟨1, 10, "tkA", false, false, 0⟩, ⟨10, 20, "Alice", none⟩,
    ⟨100, 20, "4", [("09:00", "free"), ("09:30", "free")], 0⟩⟩

/-- The snapshot the second racing call reads, before the first wrote. -/
def raceCtxB : ReserveCtx :=
  ⟨⟨2, 11, "tkB", false, false, 0⟩, ⟨11, 20, "Bob", none⟩,
    ⟨100, 20, "4", [("09:00", "free"), ("09:30", "free")], 0⟩⟩

theorem find?_map_pred {α : Type} (q : α → Bool) (f : α → α)
    (hq : ∀ y, q (f y) = q y) :
    ∀ l : List α, (l.map f).find? q = (l.find? q).map f := by
  intro l
  induction l with
  | nil => simp
  | cons x xs ih =>
    by_cases hx : q x = true
    · simp [List.find?_cons, hq, hx]
    · simp only [Bool.not_eq_true] at hx
      simp [List.find?_cons, hq, hx, ih]

theorem lookup_dictSet_self (m : List (String × String)) (k v : String) :
    (dictSet m k v).lookup k = some v := by
  induction m with
  | nil => simp [dictSet, List.lookup]
  | cons p rest ih =>
    by_cases h : p.1 = k
    · simp [dictSet, h, List.lookup]
    · have hb : (p.1 == k) = false := by simp [h]
      have hb2 : (k == p.1) = false := by simp [Ne.symm h]
      simp [dictSet, hb, List.lookup, hb2, ih]

theorem lookup_dictSet_ne (m : List (String × String)) (k v k' : String)
    (h : k' ≠ k) : (dictSet m k v).lookup k' = m.lookup k' := by
  induction m with
  | nil =>
    have hk' : (k' == k) = false := by simp [h]
    simp [dictSet, List.lookup, hk']
  | cons p rest ih =>
    by_cases hp : p.1 = k
    · have hb : (p.1 == k) = true := by simp [hp]
      have hk' : (k' == k) = false := by simp [h]
      have hk'p : (k' == p.1) = false := by simp [hp, h]
      simp [dictSet, hb, List.lookup, hk', hk'p]
    · have hb : (p.1 == k) = false := by simp [hp]
      simp [dictSet, hb, List.lookup, ih]

theorem lookup_buildFromLabels_aux (labels : List String) :
    ∀ (init : List (String × String)) (l : String),
      (labels.foldl (fun m x => dictSet m x "free") init).lookup l =
        if l ∈ labels then some "free" else init.lookup l := by
  induction labels with
  | nil => intro init l; simp
  | cons x rest ih =>
    intro init l
    by_cases hl : l ∈ rest
    · simp [List.foldl_cons, ih, hl]
    · by_cases hx : l = x
      · subst hx
        simp [List.foldl_cons, ih, hl, lookup_dictSet_self]
      · simp [List.foldl_cons, ih, hl, hx, lookup_dictSet_ne _ _ _ _ hx]

theorem lookup_buildFromLabels (labels : List String) (l : String) :
    (buildFromLabels labels).lookup l = if l ∈ labels then some "free" else none := by
  simp [buildFromLabels, lookup_buildFromLabels_aux, List.lookup]


theorem lookup_entry_fields (e : List (String × List String)) (w : String) :
    ((e.map (fun p => (p.1, Json.arr (p.2.map Json.str)))).lookup w) =
      (e.lookup w).map (fun ls => Json.arr (ls.map Json.str)) := by
  induction e with
  | nil => simp [List.lookup]
  | cons p rest ih =>
    by_cases h : w = p.1
    · simp [List.lookup, h]
    · have hb : (w == p.1) = false := by simp [h]
      simp [List.lookup, hb, ih]

theorem lookup_isSome_of_any (e : List (String × List String)) (w : String)
    (h : e.any (fun p => p.1 == w) = true) : ∃ ls, e.lookup w = some ls := by
  induction e with
  | nil => simp at h
  | cons p rest ih =>
    by_cases hp : p.1 = w
    · have hb : (w == p.1) = true := by simp [hp]
      exact ⟨p.2, by simp [List.lookup, hb]⟩
    · have hb : (p.1 == w) = false := by simp [hp]
      have hb2 : (w == p.1) = false := by simp [Ne.symm hp]
      simp only [List.any_cons, hb, Bool.false_or] at h
      obtain ⟨ls, hls⟩ := ih h
      exact ⟨ls, by simp [List.lookup, hb2, hls]⟩

theorem insertSlots_strs (labels : List String) :
    ∀ slots, insertSlots slots (labels.map Json.str) =
      .ok (labels.foldl (fun m l => dictSet m l "free") slots) := by
  induction labels with
  | nil => intro slots; simp [insertSlots]
  | cons x rest ih => intro slots; simp [insertSlots, hashable, keyToStr, ih]

theorem pyContains_obj (w : String) (fs : List (String × Json)) :
    pyContains w (Json.obj fs) = .ok (fs.any (fun f => f.1 == w)) := rfl

theorem pyIndexStr_obj (fs : List (String × Json)) (w : String) :
    pyIndexStr (Json.obj fs) w =
      match fs.lookup w with
      | some v => .ok v
      | none => .error (.crash "KeyError") := rfl

theorem buildLoop_template (w : String) :
    ∀ tpl, buildLoop w (tpl.map entryToJson) = .ok (buildFromLabels (labelsFor tpl w)) := by
  intro tpl
  induction tpl with
  | nil => simp [buildLoop, labelsFor, buildFromLabels]
  | cons e rest ih =>
    have hany : ((e.map (fun p => (p.1, Json.arr (p.2.map Json.str)))).any
        (fun f => f.1 == w)) = e.any (fun p => p.1 == w) := by
      induction e with
      | nil => rfl
      | cons q qs ihq => simp only [List.map_cons, List.any_cons, ihq]
    have h1 : pyContains w (entryToJson e) = .ok (e.any (fun p => p.1 == w)) := by
      rw [entryToJson, pyContains_obj, hany]
    by_cases h : e.any (fun p => p.1 == w) = true
    · obtain ⟨ls, hls⟩ := lookup_isSome_of_any e w h
      rw [h] at h1
      have h2 : pyIndexStr (entryToJson e) w = .ok (Json.arr (ls.map Json.str)) := by
        rw [entryToJson, pyIndexStr_obj, lookup_entry_fields, hls]
        rfl
      have htrue : (fun x : List (String × List String) => x.any fun p => p.1 == w) e = true := h
      have h4 : labelsFor (e :: rest) w = ls := by
        unfold labelsFor
        rw [List.find?_cons_of_pos _ (by simp [htrue])]
        show (List.lookup w e).getD [] = ls
        rw [hls]
        rfl
      simp [buildLoop, h1, h2, pyIter, h4, insertSlots_strs, buildFromLabels]
    · simp only [Bool.not_eq_true] at h
      rw [h] at h1
      have hfalse : (fun x : List (String × List String) => x.any fun p => p.1 == w) e = false := h
      have h4 : labelsFor (e :: rest) w = labelsFor rest w := by
        unfold labelsFor
        rw [List.find?_cons_of_neg _ (by simp [hfalse])]
      simp [buildLoop, h1, ih, h4]

theorem buildSlotsForDay_template (w : String) (tpl : List (List (String × List String))) :
    buildSlotsForDay w (templateToJson tpl) = .ok (buildFromLabels (labelsFor tpl w)) := by
  simp [buildSlotsForDay, templateToJson, pyIter, buildLoop_template]


theorem reserve_read_ok_spec {db : DB} {tok : String} {d : Date} {slot : String}
    {ctx : ReserveCtx} (h : reserve_read db tok d slot = .ok ctx) :
    db.appointments.find? (fun a => a.token == tok) = some ctx.appointment ∧
    ctx.appointment.used = false ∧ ctx.appointment.expired = false ∧
    db.patients.find? (fun p => p.id == ctx.appointment.patient_id) = some ctx.patient ∧
    db.day_slots.find? (fun r => r.clinic_id == ctx.patient.clinic_id && r.slot_date == d.iso)
      = some ctx.day_slot ∧
    ctx.day_slot.slots.lookup slot = some "free" := by
  unfold reserve_read at h
  split at h
  · exact absurd h (by simp)
  next a ha =>
    split at h
    · exact absurd h (by simp)
    next hu =>
      split at h
      · exact absurd h (by simp)
      next p hp =>
        split at h
        · exact absurd h (by simp)
        next r hr =>
          split at h
          · exact absurd h (by simp)
          next v hv =>
            split at h
            · exact absurd h (by simp)
            next hfree =>
              injection h with hctx
              subst hctx
              simp only [Bool.or_eq_true, not_or, Bool.not_eq_true] at hu
              simp only [bne_iff_ne, ne_eq, Decidable.not_not] at hfree
              subst hfree
              exact ⟨ha, hu.1, hu.2, hp, hr, hv⟩

theorem modify_slots_ok_spec {db : DB} {now : Nat} {tok : String} {d : Date} {slot : String}
    {db' : DB} {conf : Conf} (h : modify_slots db now tok d slot = (db', .ok conf)) :
    ∃ ctx, reserve_read db tok d slot = .ok ctx ∧
      db' = (reserve_write db now d slot ctx).1 ∧
      conf = (reserve_write db now d slot ctx).2 := by
  unfold modify_slots at h
  cases hr : reserve_read db tok d slot with
  | error e => rw [hr] at h; exact absurd h (by simp)
  | ok ctx =>
    rw [hr] at h
    refine ⟨ctx, rfl, ?_, ?_⟩
    · have := congrArg Prod.fst h; simpa using this.symm
    · have := congrArg Prod.snd h
      simp only [Prod.snd] at this
      injection this with h2
      exact h2.symm

theorem modify_slots_of_read_error {db : DB} {now : Nat} {tok : String} {d : Date}
    {slot : String} {e : Err} (h : reserve_read db tok d slot = .error e) :
    modify_slots db now tok d slot = (db, .error e) := by
  unfold modify_slots
  rw [h]

theorem reserve_write_appointments_find (db : DB) (now : Nat) (d : Date) (slot : String)
    (ctx : ReserveCtx) (tok : String)
    (h : db.appointments.find? (fun a => a.token == tok) = some ctx.appointment) :
    (reserve_write db now d slot ctx).1.appointments.find? (fun a => a.token == tok)
      = some { ctx.appointment with used := true } := by
  show (db.appointments.map _).find? _ = _
  rw [find?_map_pred _ _ (fun y => by cases hy : y.id == ctx.appointment.id <;> simp [hy]), h]
  simp

theorem reserve_write_patients_find (db : DB) (now : Nat) (d : Date) (slot : String)
    (ctx : ReserveCtx)
    (h : db.patients.find? (fun p => p.id == ctx.appointment.patient_id) = some ctx.patient) :
    (reserve_write db now d slot ctx).1.patients.find?
        (fun p => p.id == ctx.appointment.patient_id)
      = some { ctx.patient with next_visit := some d.iso } := by
  show (db.patients.map _).find? _ = _
  rw [find?_map_pred _ _ (fun y => by cases hy : y.id == ctx.patient.id <;> simp [hy]), h]
  simp

theorem reserve_write_day_slots_find (db : DB) (now : Nat) (d : Date) (slot : String)
    (ctx : ReserveCtx)
    (h : db.day_slots.find?
        (fun r => r.clinic_id == ctx.patient.clinic_id && r.slot_date == d.iso)
      = some ctx.day_slot) :
    (reserve_write db now d slot ctx).1.day_slots.find?
        (fun r => r.clinic_id == ctx.patient.clinic_id && r.slot_date == d.iso)
      = some { ctx.day_slot with slots := dictSet ctx.day_slot.slots slot "booked", updated_at := now } := by
  show (db.day_slots.map _).find? _ = _
  rw [find?_map_pred _ _ (fun y => by cases hy : y.id == ctx.day_slot.id <;> simp [hy]), h]
  simp


theorem get_or_create_appointments (db : DB) (tok : String) (d : Date) :
    (get_or_create_day_slots db tok d).1.appointments = db.appointments := by
  unfold get_or_create_day_slots
  repeat' split
  all_goals rfl

theorem modify_slots_appointments (db : DB) (now : Nat) (tok : String) (d : Date) (s : String) :
    ∃ f : Appointment → Appointment,
      (modify_slots db now tok d s).1.appointments = db.appointments.map f ∧
      ∀ a, a.used = true → (f a).used = true := by
  unfold modify_slots
  cases hr : reserve_read db tok d s with
  | error e => exact ⟨id, by simp, fun a h => h⟩
  | ok ctx =>
    refine ⟨fun a => if a.id == ctx.appointment.id then { a with used := true } else a, rfl, ?_⟩
    intro a h
    by_cases hy : (a.id == ctx.appointment.id) = true <;> simp [hy, h]

theorem get_or_create_existing {db : DB} {tok : String} {d : Date} {a : Appointment}
    {p : Patient} {row : DaySlot}
    (ha : db.appointments.find? (fun x => x.token == tok) = some a)
    (hu : a.used = false) (he : a.expired = false)
    (hp : db.patients.find? (fun x => x.id == a.patient_id) = some p)
    (hd : db.day_slots.find? (fun r => r.clinic_id == p.clinic_id && r.slot_date == d.iso)
      = some row) :
    get_or_create_day_slots db tok d = (db, .ok ⟨d, row.slots⟩) := by
  unfold get_or_create_day_slots
  simp only [ha, hu, he, Bool.or_self, Bool.false_eq_true, if_false, hp, hd]

theorem get_or_create_fresh {db : DB} {tok : String} {d : Date} {a : Appointment}
    {p : Patient} {c : Clinic} {tplJ : Json} {slots : List (String × String)}
    (ha : db.appointments.find? (fun x => x.token == tok) = some a)
    (hu : a.used = false) (he : a.expired = false)
    (hp : db.patients.find? (fun x => x.id == a.patient_id) = some p)
    (hd : db.day_slots.find? (fun r => r.clinic_id == p.clinic_id && r.slot_date == d.iso)
      = none)
    (hc : db.clinics.find? (fun x => x.id == p.clinic_id) = some c)
    (ht : c.clinic_slots = some tplJ)
    (hb : buildSlotsForDay d.weekdayCode tplJ = .ok slots) :
    get_or_create_day_slots db tok d =
      ({ db with
          day_slots := db.day_slots ++ [⟨db.next_day_slot_id, p.clinic_id, d.iso, slots, 0⟩],
          next_day_slot_id := db.next_day_slot_id + 1 }, .ok ⟨d, slots⟩) := by
  unfold get_or_create_day_slots
  simp only [ha, hu, he, Bool.or_self, Bool.false_eq_true, if_false, hp, hd, hc, ht, hb]

theorem get_or_create_build_error {db : DB} {tok : String} {d : Date} {a : Appointment}
    {p : Patient} {c : Clinic} {tplJ : Json} {e : Err}
    (ha : db.appointments.find? (fun x => x.token == tok) = some a)
    (hu : a.used = false) (he : a.expired = false)
    (hp : db.patients.find? (fun x => x.id == a.patient_id) = some p)
    (hd : db.day_slots.find? (fun r => r.clinic_id == p.clinic_id && r.slot_date == d.iso)
      = none)
    (hc : db.clinics.find? (fun x => x.id == p.clinic_id) = some c)
    (ht : c.clinic_slots = some tplJ)
    (hb : buildSlotsForDay d.weekdayCode tplJ = .error e) :
    get_or_create_day_slots db tok d = (db, .error e) := by
  unfold get_or_create_day_slots
  simp only [ha, hu, he, Bool.or_self, Bool.false_eq_true, if_false, hp, hd, hc, ht, hb]

theorem get_or_create_patient_missing {db : DB} {tok : String} {d : Date} {a : Appointment}
    (ha : db.appointments.find? (fun x => x.token == tok) = some a)
    (hu : a.used = false) (he : a.expired = false)
    (hp : db.patients.find? (fun x => x.id == a.patient_id) = none) :
    get_or_create_day_slots db tok d = (db, .error (.crash "IndexError")) := by
  unfold get_or_create_day_slots
  simp only [ha, hu, he, Bool.or_self, Bool.false_eq_true, if_false, hp]

theorem get_or_create_clinic_missing {db : DB} {tok : String} {d : Date} {a : Appointment}
    {p : Patient}
    (ha : db.appointments.find? (fun x => x.token == tok) = some a)
    (hu : a.used = false) (he : a.expired = false)
    (hp : db.patients.find? (fun x => x.id == a.patient_id) = some p)
    (hd : db.day_slots.find? (fun r => r.clinic_id == p.clinic_id && r.slot_date == d.iso)
      = none)
    (hc : db.clinics.find? (fun x => x.id == p.clinic_id) = none) :
    get_or_create_day_slots db tok d = (db, .error (.crash "IndexError")) := by
  unfold get_or_create_day_slots
  simp only [ha, hu, he, Bool.or_self, Bool.false_eq_true, if_false, hp, hd, hc]

theorem get_or_create_null_template {db : DB} {tok : String} {d : Date} {a : Appointment}
    {p : Patient} {c : Clinic}
    (ha : db.appointments.find? (fun x => x.token == tok) = some a)
    (hu : a.used = false) (he : a.expired = false)
    (hp : db.patients.find? (fun x => x.id == a.patient_id) = some p)
    (hd : db.day_slots.find? (fun r => r.clinic_id == p.clinic_id && r.slot_date == d.iso)
      = none)
    (hc : db.clinics.find? (fun x => x.id == p.clinic_id) = some c)
    (ht : c.clinic_slots = none) :
    get_or_create_day_slots db tok d = (db, .error (.crash "TypeError")) := by
  unfold get_or_create_day_slots
  simp only [ha, hu, he, Bool.or_self, Bool.false_eq_true, if_false, hp, hd, hc, ht]

theorem buildLoop_no_match (w : String) (entries : List Json)
    (h : ∀ e ∈ entries, pyContains w e = .ok false) : buildLoop w entries = .ok [] := by
  induction entries with
  | nil => rfl
  | cons x rest ih =>
    have hx := h x (List.mem_cons_self x rest)
    rw [buildLoop, hx]
    exact ih (fun e he => h e (List.mem_cons_of_mem x he))

theorem get_or_create_ok_spec {db db1 : DB} {tok : String} {d : Date} {resp : DayResp}
    (h : get_or_create_day_slots db tok d = (db1, .ok resp)) :
    ∃ a p row,
      db.appointments.find? (fun x => x.token == tok) = some a ∧
      a.used = false ∧ a.expired = false ∧
      db.patients.find? (fun x => x.id == a.patient_id) = some p ∧
      db1.appointments = db.appointments ∧ db1.patients = db.patients ∧
      db1.day_slots.find? (fun r => r.clinic_id == p.clinic_id && r.slot_date == d.iso)
        = some row ∧
      row.slots = resp.slots ∧ resp.date = d := by
  unfold get_or_create_day_slots at h
  split at h
  · exact absurd h (by simp)
  next a ha =>
    split at h
    next hu =>
      exact absurd h (by simp)
    next hu =>
      simp only [Bool.or_eq_true, not_or, Bool.not_eq_true] at hu
      split at h
      · exact absurd h (by simp)
      next p hp =>
        split at h
        next row hrow =>
          obtain ⟨h1, h2⟩ := Prod.mk.injEq .. ▸ h
          injection h2 with h2
          subst h1
          exact ⟨a, p, row, ha, hu.1, hu.2, hp, rfl, rfl, hrow, by rw [← h2], by rw [← h2]⟩
        next hrow =>
          split at h
          · exact absurd h (by simp)
          next c hc =>
            split at h
            · exact absurd h (by simp)
            next tpl ht =>
              split at h
              · exact absurd h (by simp)
              next slots hb =>
                obtain ⟨h1, h2⟩ := Prod.mk.injEq .. ▸ h
                injection h2 with h2
                refine ⟨a, p, ⟨db.next_day_slot_id, p.clinic_id, d.iso, slots, 0⟩,
                  ha, hu.1, hu.2, hp, ?_, ?_, ?_, ?_, ?_⟩
                · rw [← h1]
                · rw [← h1]
                · rw [← h1]
                  show (db.day_slots ++ [_]).find? _ = _
                  rw [List.find?_append, hrow]
                  simp
                · rw [← h2]
                · rw [← h2]

theorem get_or_create_again {db db1 : DB} {tok : String} {d : Date} {resp1 : DayResp}
    (h : get_or_create_day_slots db tok d = (db1, .ok resp1))
    (db2 : DB)
    (ha2 : db2.appointments = db1.appointments)
    (hp2 : db2.patients = db1.patients)
    (hd2 : db2.day_slots = db1.day_slots) :
    get_or_create_day_slots db2 tok d = (db2, .ok ⟨d, resp1.slots⟩) := by
  obtain ⟨a, p, row, ha, hu, he, hp, hea, hep, hrow, hslots, hdate⟩ := get_or_create_ok_spec h
  have ha3 : db2.appointments.find? (fun x => x.token == tok) = some a := by
    rw [ha2, hea]; exact ha
  have hp3 : db2.patients.find? (fun x => x.id == a.patient_id) = some p := by
    rw [hp2, hep]; exact hp
  have hrow3 : db2.day_slots.find?
      (fun r => r.clinic_id == p.clinic_id && r.slot_date == d.iso) = some row := by
    rw [hd2]; exact hrow
  rw [get_or_create_existing ha3 hu he hp3 hrow3, hslots]


/-- Claim C1: every successful ReserveSlot call (valid unused token,
existing day inventory, known free slot) applies all four effects: the
target slot becomes booked, the patient next_visit becomes the requested
date, exactly one audit-log row (clinic_id, patient_name, date, slot) is
appended, and the token used flag becomes true; and it returns a
confirmation carrying the booked date and slot label. -/
theorem C1_reserve_success_effects (db : DB) (now : Nat) (tok : String) (d : Date)
    (slot : String) (db2 : DB) (conf : Conf)
    (h : modify_slots db now tok d slot = (db2, .ok conf)) :
    conf.status = "success" ∧ conf.date = d ∧ conf.slot = slot ∧
    ∃ a p r,
      db.appointments.find? (fun x => x.token == tok) = some a ∧
      db.patients.find? (fun x => x.id == a.patient_id) = some p ∧
      db.day_slots.find? (fun x => x.clinic_id == p.clinic_id && x.slot_date == d.iso)
        = some r ∧
      r.slots.lookup slot = some "free" ∧
      (∃ r2, db2.day_slots.find?
            (fun x => x.clinic_id == p.clinic_id && x.slot_date == d.iso) = some r2 ∧
          r2.slots.lookup slot = some "booked") ∧
      db2.patients.find? (fun x => x.id == a.patient_id)
        = some { p with next_visit := some d.iso } ∧
      db2.ap_responses = db.ap_responses ++ [⟨p.clinic_id, p.name, d.iso, slot⟩] ∧
      db2.appointments.find? (fun x => x.token == tok) = some { a with used := true } := by
  obtain ⟨ctx, hr, hdb, hconf⟩ := modify_slots_ok_spec h
  obtain ⟨ha, hu, he, hp, hd, hl⟩ := reserve_read_ok_spec hr
  subst hdb
  subst hconf
  refine ⟨rfl, rfl, rfl, ctx.appointment, ctx.patient, ctx.day_slot,
    ha, hp, hd, hl, ?_, ?_, rfl, ?_⟩
  · exact ⟨_, reserve_write_day_slots_find db now d slot ctx hd,
      lookup_dictSet_self _ _ _⟩
  · exact reserve_write_patients_find db now d slot ctx hp
  · exact reserve_write_appointments_find db now d slot ctx tok ha

/-- Witness for C1 at a concrete store: the sample reservation succeeds
and the theorem applies to it. -/
theorem C1_reserve_success_effects_witness :
    modify_slots sampleDb 7 "tk1" sampleDate "09:00" = (sampleAfter, .ok sampleConfVal) ∧
    sampleConfVal.status = "success" ∧ sampleConfVal.date = sampleDate ∧
    sampleConfVal.slot = "09:00" :=
  have h : modify_slots sampleDb 7 "tk1" sampleDate "09:00"
      = (sampleAfter, .ok sampleConfVal) := rfl
  have hc := C1_reserve_success_effects sampleDb 7 "tk1" sampleDate "09:00"
    sampleAfter sampleConfVal h
  ⟨h, hc.1, hc.2.1, hc.2.2.1⟩

/-- Claim C3 (code bug): ReserveSlot never consults the clock, so a token
created more than 7 days before now, with stored flags false, is accepted
and books the slot; the 7-day age check exists only in the booking-page
endpoint, which rejects the same token at the same instant. -/
theorem C3_stale_token_accepted :
    (modify_slots staleDb (8 * 86400) "tks" sampleDate "09:00").2
      = .ok ⟨"success", "Appointment confirmed", sampleDate, "09:00"⟩ ∧
    book_page_token_check staleDb (8 * 86400) "tks" = .error (.http 400 "Token expired") :=
  ⟨rfl, rfl⟩

/-- Claim C5: a ReserveSlot call that fails validation performs no
mutation: the store it returns is exactly the store it was given. -/
theorem C5_validation_failure_no_mutation (db : DB) (now : Nat) (tok : String) (d : Date)
    (slot : String) (e : Err) (h : (modify_slots db now tok d slot).2 = .error e) :
    (modify_slots db now tok d slot).1 = db := by
  unfold modify_slots at h ⊢
  cases hr : reserve_read db tok d slot with
  | error e2 => simp [hr]
  | ok ctx => rw [hr] at h; simp at h

/-- Witness for C5: reserving an unknown slot label fails and leaves the
store unchanged. -/
theorem C5_validation_failure_no_mutation_witness :
    (modify_slots sampleDb 0 "tk1" sampleDate "zz").2
      = .error (.http 400 "Slot does not exist") ∧
    (modify_slots sampleDb 0 "tk1" sampleDate "zz").1 = sampleDb :=
  have h : (modify_slots sampleDb 0 "tk1" sampleDate "zz").2
      = .error (.http 400 "Slot does not exist") := rfl
  ⟨h, C5_validation_failure_no_mutation sampleDb 0 "tk1" sampleDate "zz" _ h⟩

/-- Claim C4: once a ReserveSlot call with a token succeeds, every later
ReserveSlot attempt with that token fails with the used-token rejection
and mutates nothing; and no operation of the core ever turns an
appointment row used flag from true back to false. -/
theorem C4_token_single_use :
    (∀ db now tok d slot db2 conf now2 d2 slot2,
        modify_slots db now tok d slot = (db2, .ok conf) →
        modify_slots db2 now2 tok d2 slot2
          = (db2, .error (.http 400 "Token already used or expired"))) ∧
    (∀ (db : DB) (op : Op) (i : Nat) (a a2 : Appointment),
        db.appointments[i]? = some a → (runOp db op).appointments[i]? = some a2 →
        a.used = true → a2.used = true) := by
  constructor
  · intro db now tok d slot db2 conf now2 d2 slot2 h
    obtain ⟨ctx, hr, hdb, hconf⟩ := modify_slots_ok_spec h
    obtain ⟨ha, hu, he, hp, hd, hl⟩ := reserve_read_ok_spec hr
    subst hdb
    have hfind := reserve_write_appointments_find db now d slot ctx tok ha
    have hread : reserve_read (reserve_write db now d slot ctx).1 tok d2 slot2
        = .error (.http 400 "Token already used or expired") := by
      unfold reserve_read
      rw [hfind]
      rfl
    exact modify_slots_of_read_error hread
  · intro db op i a a2 hi hi2 hu
    cases op with
    | daySlots tok d =>
      have hpr : (runOp db (.daySlots tok d)).appointments = db.appointments :=
        get_or_create_appointments db tok d
      rw [hpr, hi] at hi2
      injection hi2 with hi2
      rw [← hi2]
      exact hu
    | reserve now tok d s =>
      obtain ⟨f, hf, hpres⟩ := modify_slots_appointments db now tok d s
      have hpr : (runOp db (.reserve now tok d s)).appointments = db.appointments.map f := hf
      rw [hpr, List.getElem?_map, hi] at hi2
      injection hi2 with hi2
      rw [← hi2]
      exact hpres a hu
    | saveSlots e av =>
      have hpr : (runOp db (.saveSlots e av)).appointments = db.appointments := rfl
      rw [hpr, hi] at hi2
      injection hi2 with hi2
      rw [← hi2]
      exact hu

/-- Witness for C4: after the sample reservation consumes tk1, a second
attempt is rejected with the used-token error and changes nothing. -/
theorem C4_token_single_use_witness :
    modify_slots sampleDb 7 "tk1" sampleDate "09:00" = (sampleAfter, .ok sampleConfVal) ∧
    modify_slots sampleAfter 8 "tk1" sampleDate "09:30"
      = (sampleAfter, .error (.http 400 "Token already used or expired")) :=
  have h : modify_slots sampleDb 7 "tk1" sampleDate "09:00"
      = (sampleAfter, .ok sampleConfVal) := rfl
  ⟨h, C4_token_single_use.1 sampleDb 7 "tk1" sampleDate "09:00"
    sampleAfter sampleConfVal 8 sampleDate "09:30" h⟩

/-- Counterexample to claim C7: a used token and an expired-flagged token
produce literally the same ReserveSlot error value, so TokenUsed and
TokenExpired are not distinguishable outcomes. -/
theorem C7_counterexample_used_expired_conflated :
    (modify_slots usedDb 0 "tk1" sampleDate "09:00").2
      = .error (.http 400 "Token already used or expired") ∧
    (modify_slots expiredDb 0 "tk1" sampleDate "09:00").2
      = .error (.http 400 "Token already used or expired") ∧
    (modify_slots usedDb 0 "tk1" sampleDate "09:00").2
      = (modify_slots expiredDb 0 "tk1" sampleDate "09:00").2 :=
  ⟨rfl, rfl, rfl⟩

/-- Claim C7 as amended: ReserveSlot surfaces six distinct error
outcomes, each tied to its validation failure, except that a used token
and an expired token share the single combined used-or-expired outcome;
the six surfaced values are pairwise distinct and propagate unchanged. -/
theorem C7_error_outcomes :
    (∀ (db : DB) (now : Nat) (tok : String) (d : Date) (slot : String),
        db.appointments.find? (fun x => x.token == tok) = none →
        (modify_slots db now tok d slot).2 = .error (.http 404 "Invalid token")) ∧
    (∀ (db : DB) (now : Nat) (tok : String) (d : Date) (slot : String) (a : Appointment),
        db.appointments.find? (fun x => x.token == tok) = some a →
        (a.used || a.expired) = true →
        (modify_slots db now tok d slot).2
          = .error (.http 400 "Token already used or expired")) ∧
    (∀ (db : DB) (now : Nat) (tok : String) (d : Date) (slot : String) (a : Appointment),
        db.appointments.find? (fun x => x.token == tok) = some a →
        a.used = false → a.expired = false →
        db.patients.find? (fun x => x.id == a.patient_id) = none →
        (modify_slots db now tok d slot).2 = .error (.http 404 "Patient not found")) ∧
    (∀ (db : DB) (now : Nat) (tok : String) (d : Date) (slot : String)
        (a : Appointment) (p : Patient),
        db.appointments.find? (fun x => x.token == tok) = some a →
        a.used = false → a.expired = false →
        db.patients.find? (fun x => x.id == a.patient_id) = some p →
        db.day_slots.find? (fun r => r.clinic_id == p.clinic_id && r.slot_date == d.iso)
          = none →
        (modify_slots db now tok d slot).2 = .error (.http 404 "Day slots not found")) ∧
    (∀ (db : DB) (now : Nat) (tok : String) (d : Date) (slot : String)
        (a : Appointment) (p : Patient) (r : DaySlot),
        db.appointments.find? (fun x => x.token == tok) = some a →
        a.used = false → a.expired = false →
        db.patients.find? (fun x => x.id == a.patient_id) = some p →
        db.day_slots.find? (fun x => x.clinic_id == p.clinic_id && x.slot_date == d.iso)
          = some r →
        r.slots.lookup slot = none →
        (modify_slots db now tok d slot).2 = .error (.http 400 "Slot does not exist")) ∧
    (∀ (db : DB) (now : Nat) (tok : String) (d : Date) (slot : String)
        (a : Appointment) (p : Patient) (r : DaySlot) (v : String),
        db.appointments.find? (fun x => x.token == tok) = some a →
        a.used = false → a.expired = false →
        db.patients.find? (fun x => x.id == a.patient_id) = some p →
        db.day_slots.find? (fun x => x.clinic_id == p.clinic_id && x.slot_date == d.iso)
          = some r →
        r.slots.lookup slot = some v → v ≠ "free" →
        (modify_slots db now tok d slot).2 = .error (.http 400 "Slot already booked")) ∧
    List.Pairwise (fun x y => x ≠ y)
      [Err.http 404 "Invalid token", Err.http 400 "Token already used or expired",
        Err.http 404 "Patient not found", Err.http 404 "Day slots not found",
        Err.http 400 "Slot does not exist", Err.http 400 "Slot already booked"] := by
  refine ⟨?_, ?_, ?_, ?_, ?_, ?_, by decide⟩
  · intro db now tok d slot ha
    unfold modify_slots reserve_read
    rw [ha]
  · intro db now tok d slot a ha hue
    unfold modify_slots reserve_read
    rw [ha]
    simp only [hue, if_true]
  · intro db now tok d slot a ha hu he hp
    unfold modify_slots reserve_read
    simp only [ha, hu, he, Bool.or_self, Bool.false_eq_true, if_false, hp]
  · intro db now tok d slot a p ha hu he hp hd
    unfold modify_slots reserve_read
    simp only [ha, hu, he, Bool.or_self, Bool.false_eq_true, if_false, hp, hd]
  · intro db now tok d slot a p r ha hu he hp hd hl
    unfold modify_slots reserve_read
    simp only [ha, hu, he, Bool.or_self, Bool.false_eq_true, if_false, hp, hd, hl]
  · intro db now tok d slot a p r v ha hu he hp hd hl hv
    have hbne : (v != "free") = true := by simp [hv]
    unfold modify_slots reserve_read
    simp only [ha, hu, he, Bool.or_self, Bool.false_eq_true, if_false, hp, hd, hl,
      hbne, if_true]

/-- Witness for C7 as amended: a token string absent from the store is
rejected with the distinct invalid-token outcome. -/
theorem C7_error_outcomes_witness :
    (modify_slots sampleDb 0 "nope" sampleDate "09:00").2
      = .error (.http 404 "Invalid token") :=
  C7_error_outcomes.1 sampleDb 0 "nope" sampleDate "09:00" rfl

/-- Claim C2: materializing a not-yet-stored date against a well-formed
weekly template yields exactly the labels the first day-entry matching
the weekday lists, every one in state free; when no day-entry matches,
the inventory is empty and the call still succeeds. -/
theorem C2_materialize_matches_template (db : DB) (tok : String) (d : Date)
    (tpl : List (List (String × List String))) (a : Appointment) (p : Patient) (c : Clinic)
    (ha : db.appointments.find? (fun x => x.token == tok) = some a)
    (hu : a.used = false) (he : a.expired = false)
    (hp : db.patients.find? (fun x => x.id == a.patient_id) = some p)
    (hd : db.day_slots.find? (fun r => r.clinic_id == p.clinic_id && r.slot_date == d.iso)
      = none)
    (hc : db.clinics.find? (fun x => x.id == p.clinic_id) = some c)
    (ht : c.clinic_slots = some (templateToJson tpl)) :
    (get_or_create_day_slots db tok d).2
      = .ok ⟨d, buildFromLabels (labelsFor tpl d.weekdayCode)⟩ ∧
    (∀ l, (buildFromLabels (labelsFor tpl d.weekdayCode)).lookup l
      = if l ∈ labelsFor tpl d.weekdayCode then some "free" else none) ∧
    (labelsFor tpl d.weekdayCode = [] →
      buildFromLabels (labelsFor tpl d.weekdayCode) = []) := by
  refine ⟨?_, fun l => lookup_buildFromLabels _ l, fun hnil => by rw [hnil]; rfl⟩
  rw [get_or_create_fresh ha hu he hp hd hc ht (buildSlotsForDay_template d.weekdayCode tpl)]

/-- Witness for C2 at a concrete store: the Monday template materializes
both labels free on a Monday date. -/
theorem C2_materialize_matches_template_witness :
    (get_or_create_day_slots freshDb "tk1" sampleDate).2
      = .ok ⟨sampleDate, buildFromLabels (labelsFor tplMon sampleDate.weekdayCode)⟩ ∧
    buildFromLabels (labelsFor tplMon sampleDate.weekdayCode)
      = [("09:00", "free"), ("09:30", "free")] :=
  have hc := C2_materialize_matches_template freshDb "tk1" sampleDate tplMon
    ⟨1, 10, "tk1", false, false, 0⟩ ⟨10, 20, "Alice", none⟩
    ⟨20, "a@x.com", some (templateToJson tplMon)⟩ rfl rfl rfl rfl rfl rfl rfl
  ⟨hc.1, rfl⟩

/-- Claim C6: after a successful GetOrCreateDaySlots, a second call for
the same token and date returns the identical slot set and leaves the
store untouched, and it still does so after the clinic template is
replaced in between: the materialized inventory is frozen. -/
theorem C6_inventory_frozen (db db1 : DB) (tok : String) (d : Date) (resp1 : DayResp)
    (h : get_or_create_day_slots db tok d = (db1, .ok resp1))
    (email : String) (tpl2 : List Json) :
    get_or_create_day_slots db1 tok d = (db1, .ok ⟨d, resp1.slots⟩) ∧
    get_or_create_day_slots (save_clinic_slots db1 email tpl2) tok d
      = (save_clinic_slots db1 email tpl2, .ok ⟨d, resp1.slots⟩) :=
  ⟨get_or_create_again h db1 rfl rfl rfl,
    get_or_create_again h (save_clinic_slots db1 email tpl2) rfl rfl rfl⟩

/-- Witness for C6: a concrete first materialization, repeated after a
template replacement, returns the same two slots. -/
theorem C6_inventory_frozen_witness :
    get_or_create_day_slots freshDb "tk1" sampleDate
      = ((get_or_create_day_slots freshDb "tk1" sampleDate).1,
        .ok ⟨sampleDate, [("09:00", "free"), ("09:30", "free")]⟩) ∧
    get_or_create_day_slots
        (save_clinic_slots (get_or_create_day_slots freshDb "tk1" sampleDate).1 "a@x.com" [])
        "tk1" sampleDate
      = (save_clinic_slots (get_or_create_day_slots freshDb "tk1" sampleDate).1 "a@x.com" [],
        .ok ⟨sampleDate, [("09:00", "free"), ("09:30", "free")]⟩) :=
  have h : get_or_create_day_slots freshDb "tk1" sampleDate
      = ((get_or_create_day_slots freshDb "tk1" sampleDate).1,
        .ok ⟨sampleDate, [("09:00", "free"), ("09:30", "free")]⟩) := rfl
  ⟨h, (C6_inventory_frozen freshDb _ "tk1" sampleDate _ h "a@x.com" []).2⟩

/-- Counterexample to claim C9: with an absent (NULL) stored template the
materializer raises an unhandled TypeError instead of producing an empty
inventory. -/
theorem C9_counterexample_null_template_crashes :
    (get_or_create_day_slots nullDb "tk1" sampleDate).2 = .error (.crash "TypeError") :=
  rfl

/-- Claim C9 as amended: a stored template that is a list whose entries do
not match the weekday materializes an empty inventory without error, but
an absent (NULL) template, or a stored null, number or boolean, is not
tolerated: the materializer raises an unhandled TypeError. -/
theorem C9_malformed_template_handling :
    (∀ (db : DB) (tok : String) (d : Date) (a : Appointment) (p : Patient) (c : Clinic)
        (entries : List Json),
        db.appointments.find? (fun x => x.token == tok) = some a →
        a.used = false → a.expired = false →
        db.patients.find? (fun x => x.id == a.patient_id) = some p →
        db.day_slots.find? (fun r => r.clinic_id == p.clinic_id && r.slot_date == d.iso)
          = none →
        db.clinics.find? (fun x => x.id == p.clinic_id) = some c →
        c.clinic_slots = some (Json.arr entries) →
        (∀ e2 ∈ entries, pyContains d.weekdayCode e2 = .ok false) →
        (get_or_create_day_slots db tok d).2 = .ok ⟨d, []⟩) ∧
    (∀ (db : DB) (tok : String) (d : Date) (a : Appointment) (p : Patient) (c : Clinic),
        db.appointments.find? (fun x => x.token == tok) = some a →
        a.used = false → a.expired = false →
        db.patients.find? (fun x => x.id == a.patient_id) = some p →
        db.day_slots.find? (fun r => r.clinic_id == p.clinic_id && r.slot_date == d.iso)
          = none →
        db.clinics.find? (fun x => x.id == p.clinic_id) = some c →
        (c.clinic_slots = none ∨ c.clinic_slots = some Json.null ∨
          (∃ n, c.clinic_slots = some (Json.num n)) ∨
          (∃ b, c.clinic_slots = some (Json.bool b))) →
        (get_or_create_day_slots db tok d).2 = .error (.crash "TypeError")) := by
  constructor
  · intro db tok d a p c entries ha hu he hp hd hc ht hnone
    have hb : buildSlotsForDay d.weekdayCode (Json.arr entries) = .ok [] := by
      unfold buildSlotsForDay
      simp only [pyIter]
      exact buildLoop_no_match _ _ hnone
    rw [get_or_create_fresh ha hu he hp hd hc ht hb]
  · intro db tok d a p c ha hu he hp hd hc ht
    rcases ht with ht | ht | ⟨n, ht⟩ | ⟨b, ht⟩
    · rw [get_or_create_null_template ha hu he hp hd hc ht]
    · rw [get_or_create_build_error ha hu he hp hd hc ht rfl]
    · rw [get_or_create_build_error ha hu he hp hd hc ht rfl]
    · rw [get_or_create_build_error ha hu he hp hd hc ht rfl]

/-- Witness for C9 as amended: an empty-list template materializes an
empty inventory, and the NULL template crashes. -/
theorem C9_malformed_template_handling_witness :
    (get_or_create_day_slots emptyTplDb "tk1" sampleDate).2 = .ok ⟨sampleDate, []⟩ ∧
    (get_or_create_day_slots nullDb "tk1" sampleDate).2 = .error (.crash "TypeError") :=
  ⟨C9_malformed_template_handling.1 emptyTplDb "tk1" sampleDate
      ⟨1, 10, "tk1", false, false, 0⟩ ⟨10, 20, "Alice", none⟩ ⟨20, "a@x.com", some (Json.arr [])⟩
      [] rfl rfl rfl rfl rfl rfl rfl (fun e2 he2 => absurd he2 (List.not_mem_nil e2)),
    C9_malformed_template_handling.2 nullDb "tk1" sampleDate
      ⟨1, 10, "tk1", false, false, 0⟩ ⟨10, 20, "Alice", none⟩ ⟨20, "a@x.com", none⟩
      rfl rfl rfl rfl rfl rfl (Or.inl rfl)⟩

/-- Claim C10: when the token row passes the flag checks but the patient
row, or (on the fresh path) the clinic row, is absent, /day-slots raises
an unhandled IndexError from indexing the empty query result, which is a
crash outcome and not any typed HTTP error. -/
theorem C10_missing_rows_crash :
    (∀ (db : DB) (tok : String) (d : Date) (a : Appointment),
        db.appointments.find? (fun x => x.token == tok) = some a →
        a.used = false → a.expired = false →
        db.patients.find? (fun x => x.id == a.patient_id) = none →
        get_or_create_day_slots db tok d = (db, .error (.crash "IndexError"))) ∧
    (∀ (db : DB) (tok : String) (d : Date) (a : Appointment) (p : Patient),
        db.appointments.find? (fun x => x.token == tok) = some a →
        a.used = false → a.expired = false →
        db.patients.find? (fun x => x.id == a.patient_id) = some p →
        db.day_slots.find? (fun r => r.clinic_id == p.clinic_id && r.slot_date == d.iso)
          = none →
        db.clinics.find? (fun x => x.id == p.clinic_id) = none →
        get_or_create_day_slots db tok d = (db, .error (.crash "IndexError"))) ∧
    (∀ (status : Nat) (detail : String), Err.crash "IndexError" ≠ Err.http status detail) := by
  refine ⟨?_, ?_, fun status detail h => Err.noConfusion h⟩
  · intro db tok d a ha hu he hp
    exact get_or_create_patient_missing ha hu he hp
  · intro db tok d a p ha hu he hp hd hc
    exact get_or_create_clinic_missing ha hu he hp hd hc

/-- Witness for C10: the store whose patient row is missing crashes with
IndexError on /day-slots. -/
theorem C10_missing_rows_crash_witness :
    get_or_create_day_slots noPatientDb "tk1" sampleDate
      = (noPatientDb, .error (.crash "IndexError")) :=
  C10_missing_rows_crash.1 noPatientDb "tk1" sampleDate
    ⟨1, 10, "tk1", false, false, 0⟩ rfl rfl rfl rfl

/-- Claim C8 (code bug): under the interleaving in which both ReserveSlot
calls perform their read-and-validate phase before either write phase
runs, both calls succeed for the same free slot, two audit rows are
recorded, and no conflict error is produced; only fully serialized calls
give one success and one already-booked failure. -/
theorem C8_race_two_successes :
    reserve_read raceDb "tkA" sampleDate "09:00" = .ok raceCtxA ∧
    reserve_read raceDb "tkB" sampleDate "09:00" = .ok raceCtxB ∧
    (reserve_write raceDb 0 sampleDate "09:00" raceCtxA).2.status = "success" ∧
    (reserve_write (reserve_write raceDb 0 sampleDate "09:00" raceCtxA).1
        0 sampleDate "09:00" raceCtxB).2.status = "success" ∧
    (reserve_write (reserve_write raceDb 0 sampleDate "09:00" raceCtxA).1
        0 sampleDate "09:00" raceCtxB).1.ap_responses.length = 2 ∧
    (modify_slots (modify_slots raceDb 0 "tkA" sampleDate "09:00").1
        0 "tkB" sampleDate "09:00").2 = .error (.http 400 "Slot already booked") :=
  ⟨rfl, rfl, rfl, rfl, rfl, rfl⟩

end BookBack
